import Mathlib

/-!
Verification of the go-auth-service authentication core against its
specification.  The repository consists of the configuration package
(internal/config/config.go), the OpenAPI declaration of the HTTP contract,
and the handler / repository / utility code of the authentication guide
document (models.User, UserRepository, HashPassword / CheckPasswordHash,
AuthHandler.Register, AuthHandler.Login, AuthMiddleware, and the
users-table migration with its UNIQUE email constraint).

Go code is embedded shallowly: pure functions become Lean functions,
the database table becomes an explicit list threaded through the
handlers, environment access becomes a lookup in an association list,
and fallible operations return Except.  Components the spec describes
but whose code is not in the repository (the activation token manager,
and the internals of the third-party bcrypt and JWT libraries) are
modelled from the specification text; each such definition carries a
doc comment saying so.
-/

namespace GoAuth

/-! ## Configuration (internal/config/config.go) -/

/-- A process environment: an association list from variable names to their
values.  A name absent from the list is an unset variable. -/
abbrev Env : Type := List (String × String)

/-- Embeds os.Getenv: the value of the variable, or the empty string when the
variable is unset. -/
def osGetenv (env : Env) (key : String) : String :=
  match List.lookup key env with
  | some v => v
  | none => ""

/-- Embeds getEnv from internal/config/config.go: retrieve an environment
variable, falling back to the given default when os.Getenv returns the empty
string (both for an unset variable and for one set to the empty string). -/
def getEnv (env : Env) (key defaultValue : String) : String :=
  let value := osGetenv env key
  if value = "" then defaultValue else value

/-- Embeds the Config struct of internal/config/config.go. -/
structure Config where
  DBHost : String
  DBPort : String
  DBUser : String
  DBPassword : String
  DBName : String
  DBSSLMode : String
  JWTSecret : String
  SMTPHost : String
  SMTPPort : String
  SMTPUsername : String
  SMTPPassword : String
  SMTPFromEmail : String
  AppPort : String
  ActivateBaseURL : String
  deriving Repr, DecidableEq

/-- Embeds LoadConfig from internal/config/config.go: every field is read
through getEnv with the hard-coded default of the corresponding call site
(the .env loading step only logs a warning and never aborts, so it does not
affect the result for a given environment). -/
def LoadConfig (env : Env) : Config :=
  { DBHost := getEnv env "DB_HOST" "localhost"
    DBPort := getEnv env "DB_PORT" "5432"
    DBUser := getEnv env "DB_USER" "postgres"
    DBPassword := getEnv env "DB_PASSWORD" "postgres"
    DBName := getEnv env "DB_NAME" "postgres"
    DBSSLMode := getEnv env "DB_SSL_MODE" "disable"
    JWTSecret := getEnv env "JWT_SECRET" "secret"
    SMTPHost := getEnv env "SMTP_HOST" "smtp.example.com"
    SMTPPort := getEnv env "SMTP_PORT" "587"
    SMTPUsername := getEnv env "SMTP_USERNAME" ""
    SMTPPassword := getEnv env "SMTP_PASSWORD" ""
    SMTPFromEmail := getEnv env "SMTP_FROM_EMAIL" "noreply@example.com"
    AppPort := getEnv env "APP_PORT" "8080"
    ActivateBaseURL := getEnv env "ACTIVATE_BASE_URL" "http://localhost:3000" }

/-! ## Password hashing (internal/utils/password.go) -/

/-- Modelled from the spec: bcrypt.GenerateFromPassword lives in the
third-party golang.org/x/crypto module, whose source is not part of this
repository.  Per the specification of the Credential Hasher (it "fails only
on an input that exceeds a sane length bound or on an internal RNG/algorithm
failure") and bcrypt's documented contract, generation fails exactly when the
password exceeds bcrypt's 72-byte bound or the salt RNG fails; the rngOk
argument models the RNG outcome, and the produced hash is represented
symbolically by its bcrypt-style prefix applied to the input. -/
def bcryptGenerateFromPassword (rngOk : Bool) (password : String) :
    Except String String :=
  if 72 < password.utf8ByteSize then
    .error "bcrypt: password length exceeds 72 bytes"
  else if rngOk then
    .ok ("$2a$10$" ++ password)
  else
    .error "bcrypt: rng failure"

/-- Embeds HashPassword from internal/utils/password.go: a direct call to
bcrypt.GenerateFromPassword with the default cost, returning the hash string
and the error unchanged. -/
def HashPassword (rngOk : Bool) (password : String) : Except String String :=
  bcryptGenerateFromPassword rngOk password

/-- Modelled from the spec: bcrypt.CompareHashAndPassword, the verification
half of the third-party bcrypt module, over the same symbolic model as
generation — it succeeds exactly when the hash is the one generation
produces for the password, and reports any mismatch as the library's
mismatch error.  The collision-free idealization is what the spec's "false
with overwhelming probability" licenses, the same convention as the
symbolic MAC of the identity-token layer. -/
def bcryptCompareHashAndPassword (hash password : String) :
    Except String Unit :=
  if hash = "$2a$10$" ++ password then .ok ()
  else .error "crypto/bcrypt: hashedPassword is not the hash of the given password"

/-- Embeds CheckPasswordHash from internal/utils/password.go: it calls
bcrypt.CompareHashAndPassword and returns err == nil, so a non-matching
password comes back as the ordinary boolean result false of a total
function, never as a propagated error. -/
def CheckPasswordHash (password hash : String) : Bool :=
  match bcryptCompareHashAndPassword hash password with
  | .ok _ => true
  | .error _ => false

/-- Appending to a fixed string on the left is injective on strings. -/
theorem string_append_left_cancel {s t1 t2 : String} (h : s ++ t1 = s ++ t2) :
    t1 = t2 := by
  have hd := congrArg String.data h
  rw [String.data_append, String.data_append] at hd
  exact String.ext (List.append_cancel_left hd)

/-! ## Theorems: configuration and hasher -/

/-- C10: LoadConfig never fails on a missing or empty environment — getEnv
returns the hard-coded default whenever the variable is unset or set to the
empty string, and in particular JWTSecret silently defaults to "secret" when
JWT_SECRET is absent. -/
theorem getEnv_default_on_missing (env : Env) (key defaultValue : String)
    (h : List.lookup key env = none ∨ List.lookup key env = some "") :
    getEnv env key defaultValue = defaultValue ∧
      ((List.lookup "JWT_SECRET" env = none ∨
          List.lookup "JWT_SECRET" env = some "") →
        (LoadConfig env).JWTSecret = "secret") := by
  constructor
  · unfold getEnv osGetenv
    rcases h with h | h <;> simp [h]
  · intro h2
    show getEnv env "JWT_SECRET" "secret" = "secret"
    unfold getEnv osGetenv
    rcases h2 with h2 | h2 <;> simp [h2]

/-- Witness for C10: in the empty environment, getEnv yields the default and
LoadConfig yields JWTSecret = "secret". -/
theorem getEnv_default_on_missing_witness :
    getEnv ([] : Env) "JWT_SECRET" "secret" = "secret" ∧
      (LoadConfig ([] : Env)).JWTSecret = "secret" :=
  ⟨(getEnv_default_on_missing [] "JWT_SECRET" "secret" (Or.inl rfl)).1,
   (getEnv_default_on_missing [] "JWT_SECRET" "secret" (Or.inl rfl)).2
     (Or.inl rfl)⟩

/-- C9: HashPassword returns an error exactly when the password exceeds the
algorithm's 72-byte length bound or the internal RNG fails; for every
password within the bound, with a working RNG, it returns a hash. -/
theorem hashPassword_error_iff (rngOk : Bool) (password : String) :
    ((∃ e, HashPassword rngOk password = Except.error e) ↔
      (72 < password.utf8ByteSize ∨ rngOk = false)) ∧
    (password.utf8ByteSize ≤ 72 → rngOk = true →
      HashPassword rngOk password = Except.ok ("$2a$10$" ++ password)) := by
  unfold HashPassword bcryptGenerateFromPassword
  constructor
  · by_cases h : 72 < password.utf8ByteSize <;> cases rngOk <;> simp [h]
  · intro h1 h2
    subst h2
    simp [Nat.not_lt.mpr h1]

/-- Witness for C9: a 9-byte password hashes successfully. -/
theorem hashPassword_error_iff_witness :
    HashPassword true "password1" = Except.ok "$2a$10$password1" :=
  (hashPassword_error_iff true "password1").2 (by decide) rfl

/-- C3: over the symbolic collision-free bcrypt model (the idealization the
spec's "false with overwhelming probability" licenses), verification
round-trips — whenever hashing p1 succeeds, CheckPasswordHash(p1, Hash(p1))
is true, and for a distinct password p2 whose hash also succeeds,
CheckPasswordHash(p1, Hash(p2)) is false; the mismatch is the ordinary
value false of the total boolean wrapper, not an error. -/
theorem checkPasswordHash_roundtrip (p1 p2 hash1 hash2 : String)
    (h1 : HashPassword true p1 = Except.ok hash1)
    (h2 : HashPassword true p2 = Except.ok hash2)
    (hne : p1 ≠ p2) :
    CheckPasswordHash p1 hash1 = true ∧ CheckPasswordHash p1 hash2 = false := by
  have e1 : hash1 = "$2a$10$" ++ p1 := by
    unfold HashPassword bcryptGenerateFromPassword at h1
    by_cases hb : 72 < p1.utf8ByteSize
    · simp [hb] at h1
    · simp [hb] at h1
      exact h1.symm
  have e2 : hash2 = "$2a$10$" ++ p2 := by
    unfold HashPassword bcryptGenerateFromPassword at h2
    by_cases hb : 72 < p2.utf8ByteSize
    · simp [hb] at h2
    · simp [hb] at h2
      exact h2.symm
  subst e1
  subst e2
  constructor
  · unfold CheckPasswordHash bcryptCompareHashAndPassword
    simp
  · have hd : ("$2a$10$" ++ p2) ≠ ("$2a$10$" ++ p1) := fun hc =>
      hne (string_append_left_cancel hc).symm
    unfold CheckPasswordHash bcryptCompareHashAndPassword
    simp [hd]

/-- Witness for C3: the hash of password1 verifies against password1 and the
hash of a different password does not. -/
theorem checkPasswordHash_roundtrip_witness :
    CheckPasswordHash "password1" "$2a$10$password1" = true ∧
    CheckPasswordHash "password1" "$2a$10$wrong" = false :=
  checkPasswordHash_roundtrip "password1" "wrong"
    "$2a$10$password1" "$2a$10$wrong" rfl rfl (by decide)

/-! ## Users and repository (internal/models/user.go, internal/repository) -/

/-- Embeds models.User from internal/models/user.go: id, email and the stored
password hash.  The struct has no username field and no activation-status
field. -/
structure User where
  ID : Nat
  Email : String
  Password : String
  deriving Repr, DecidableEq

/-- The users table of migrations/001_create_users_table.sql:
id SERIAL PRIMARY KEY, email UNIQUE NOT NULL, password NOT NULL. -/
abbrev DB : Type := List User

/-- Embeds UserRepository.CreateUser: INSERT INTO users (email, password).
The UNIQUE constraint on email makes the insert fail when a row with that
email already exists; SERIAL assigns the next id. -/
def CreateUser (db : DB) (email password : String) : Except String DB :=
  if db.any (fun u => u.Email == email) then
    .error "pq: duplicate key value violates unique constraint"
  else
    .ok (db ++ [{ ID := db.length + 1, Email := email, Password := password }])

/-- Embeds UserRepository.FindUserByEmail: SELECT id, email, password FROM
users WHERE email = $1; the none case corresponds to sql.ErrNoRows. -/
def FindUserByEmail (db : DB) (email : String) : Option User :=
  db.find? (fun u => u.Email == email)

/-! ## Identity tokens (JWT usage in AuthHandler.Login and AuthMiddleware) -/

/-- The claim set AuthHandler.Login signs: user_id, email, and exp set to
now + 24 hours (in seconds). -/
structure JwtClaims where
  user_id : Nat
  email : String
  exp : Nat
  deriving Repr, DecidableEq

/-- Verification failures of the identity-token layer. -/
inductive JwtError where
  | Malformed
  | BadSignature
  | Expired
  deriving Repr, DecidableEq

/-- Modelled from the spec: the HS256 MAC of the third-party
github.com/golang-jwt/jwt library is not part of this repository.  Per the
spec's Identity Token Issuer (a symmetric MAC over the payload with a
server-held secret, verification exact), the MAC is modelled symbolically:
the tag of a token is the signing secret paired with the signed claims, and
verification recomputes that tag. -/
structure JwtToken where
  claims : JwtClaims
  tag : String × JwtClaims
  deriving Repr, DecidableEq

/-- Symbolic HS256 signing: token.SignedString in AuthHandler.Login. -/
def jwtSign (secret : String) (claims : JwtClaims) : JwtToken :=
  { claims := claims, tag := (secret, claims) }

/-- Models jwt.Parse plus the token.Valid check of AuthMiddleware: the
signature is validated first against the configured secret, then the exp
claim against the clock (the library's ErrTokenExpired); on success the
verified claims are returned. -/
def jwtParse (secret : String) (now : Nat) (tok : JwtToken) :
    Except JwtError JwtClaims :=
  if tok.tag = (secret, tok.claims) then
    if tok.claims.exp ≤ now then .error .Expired else .ok tok.claims
  else
    .error .BadSignature

/-- Embeds the token issuance inside AuthHandler.Login: claims user_id,
email, exp = now + 24h, signed with the handler's jwtSecret.  (In the
symbolic MAC model signing never fails, so the handler's 500 branch for a
signing error is unreachable.) -/
def jwtIssue (secret : String) (uid : Nat) (email : String) (now : Nat) :
    JwtToken :=
  jwtSign secret { user_id := uid, email := email, exp := now + 86400 }

/-! ## HTTP handlers (internal/handlers/auth_handler.go) -/

/-- An HTTP response as the gin handlers produce it: the status code and the
single field the handler writes into the JSON body — an error description,
a message, or a token. -/
structure Response where
  status : Nat
  errorMsg : Option String
  message : Option String
  token : Option JwtToken
  deriving Repr, DecidableEq

/-- Embeds AuthHandler.Register.  The parsed argument is the outcome of
c.ShouldBindJSON into models.User: none for a malformed request body,
otherwise the bound email and password — the struct carries no validation
tags, so binding succeeds on any well-formed JSON object and no field is
validated.  The handler then hashes the password (500 on hash failure),
inserts the row (500 on any insert failure, including the UNIQUE-constraint
violation), and answers 201.  Returns the response together with the
resulting users table. -/
def Register (rngOk : Bool) (db : DB) (parsed : Option (String × String)) :
    Response × DB :=
  match parsed with
  | none =>
    ({ status := 400, errorMsg := some "invalid request body",
       message := none, token := none }, db)
  | some (email, password) =>
    match HashPassword rngOk password with
    | .error _ =>
      ({ status := 500, errorMsg := some "Failed to hash password",
         message := none, token := none }, db)
    | .ok hashedPassword =>
      match CreateUser db email hashedPassword with
      | .error _ =>
        ({ status := 500, errorMsg := some "Failed to create user",
           message := none, token := none }, db)
      | .ok db2 =>
        ({ status := 201, errorMsg := none,
           message := some "User created successfully", token := none }, db2)

/-- Embeds AuthHandler.Login: bind the body (400 on malformed JSON), fetch
the user by email (401 Invalid credentials when absent), check the password
against the stored hash (401 Invalid credentials on mismatch), then sign and
return the JWT with status 200.  The verify argument stands for
utils.CheckPasswordHash, the boolean wrapper around
bcrypt.CompareHashAndPassword.  No activation status is consulted: the
handler has no other branch. -/
def Login (verify : String → String → Bool) (secret : String) (now : Nat)
    (db : DB) (parsed : Option (String × String)) : Response :=
  match parsed with
  | none =>
    { status := 400, errorMsg := some "invalid request body",
      message := none, token := none }
  | some (email, password) =>
    match FindUserByEmail db email with
    | none =>
      { status := 401, errorMsg := some "Invalid credentials",
        message := none, token := none }
    | some dbUser =>
      if verify password dbUser.Password then
        { status := 200, errorMsg := none, message := none,
          token := some (jwtIssue secret dbUser.ID dbUser.Email now) }
      else
        { status := 401, errorMsg := some "Invalid credentials",
          message := none, token := none }

/-! ## Theorems: handlers and identity tokens -/

/-- C4: the 401 error response for an email absent from the directory is the
very response returned for a present email with a wrong password — same
status 401 and the same body — so the two runs are indistinguishable to the
caller. -/
theorem login_no_existence_leak (verify : String → String → Bool)
    (secret : String) (now : Nat) (db : DB)
    (email1 pw1 email2 pw2 : String) (u : User)
    (h1 : FindUserByEmail db email1 = none)
    (h2 : FindUserByEmail db email2 = some u)
    (h3 : verify pw2 u.Password = false) :
    Login verify secret now db (some (email1, pw1)) =
      Login verify secret now db (some (email2, pw2)) ∧
    Login verify secret now db (some (email1, pw1)) =
      { status := 401, errorMsg := some "Invalid credentials",
        message := none, token := none } := by
  simp [Login, h1, h2, h3]

/-- Witness for C4: a directory holding only a@b.com; logging in as the
unknown x@y.com and as a@b.com with a wrong password produce the identical
401 body. -/
theorem login_no_existence_leak_witness :
    Login (fun p h => h == "$2a$10$" ++ p) "secret" 0
        [{ ID := 1, Email := "a@b.com", Password := "$2a$10$password1" }]
        (some ("x@y.com", "wrong")) =
      Login (fun p h => h == "$2a$10$" ++ p) "secret" 0
        [{ ID := 1, Email := "a@b.com", Password := "$2a$10$password1" }]
        (some ("a@b.com", "wrong")) ∧
    Login (fun p h => h == "$2a$10$" ++ p) "secret" 0
        [{ ID := 1, Email := "a@b.com", Password := "$2a$10$password1" }]
        (some ("x@y.com", "wrong")) =
      { status := 401, errorMsg := some "Invalid credentials",
        message := none, token := none } :=
  login_no_existence_leak (fun p h => h == "$2a$10$" ++ p) "secret" 0
    [{ ID := 1, Email := "a@b.com", Password := "$2a$10$password1" }]
    "x@y.com" "wrong" "a@b.com" "wrong"
    { ID := 1, Email := "a@b.com", Password := "$2a$10$password1" }
    (by decide) (by decide) (by decide)

/-- C1 evaluation at the failing input: the handler has no activation gate —
models.User has no status field and Login never checks one — so registering
a (necessarily still-pending) user and logging in with the correct password
returns 200 with an identity token, not a 401 NotActivated error. -/
theorem login_pending_account_succeeds :
    (Register true [] (some ("a@b.com", "password1"))).1.status = 201 ∧
    Login (fun p h => h == "$2a$10$" ++ p) "secret" 0
        (Register true [] (some ("a@b.com", "password1"))).2
        (some ("a@b.com", "password1")) =
      { status := 200, errorMsg := none, message := none,
        token := some (jwtIssue "secret" 1 "a@b.com" 0) } := by
  constructor <;> decide

/-- C5 evaluation at the failing input: Register performs no input
validation — a malformed email, a missing username (the model has no such
field) and a 1-character password are accepted: the password is hashed, the
row is inserted, and the handler answers 201, all side effects included. -/
theorem register_performs_no_validation :
    Register true [] (some ("not-an-email", "x")) =
      ({ status := 201, errorMsg := none,
         message := some "User created successfully", token := none },
       [{ ID := 1, Email := "not-an-email", Password := "$2a$10$x" }]) := by
  decide

/-- C6 evaluation at the failing input: registering a@b.com twice — the
second insert violates the UNIQUE email constraint and the handler surfaces
it as 500 Failed to create user, not as the 409 conflict the API declares. -/
theorem register_duplicate_returns_500 :
    (Register true
        (Register true [] (some ("a@b.com", "password1"))).2
        (some ("a@b.com", "password1"))).1 =
      { status := 500, errorMsg := some "Failed to create user",
        message := none, token := none } := by
  decide

/-- C7: verifying an identity token immediately after issuance succeeds and
the returned claims carry the issued user id; verifying the same token at
any time once the clock passes exp = now + 24h yields Expired. -/
theorem jwt_issue_then_verify (secret : String) (uid : Nat) (email : String)
    (now t : Nat) (h : now + 86400 ≤ t) :
    jwtParse secret now (jwtIssue secret uid email now) =
      Except.ok { user_id := uid, email := email, exp := now + 86400 } ∧
    jwtParse secret t (jwtIssue secret uid email now) =
      Except.error JwtError.Expired := by
  constructor
  · unfold jwtParse jwtIssue jwtSign
    simp
  · unfold jwtParse jwtIssue jwtSign
    simp [h]

/-- Witness for C7: issue for user 1 at time 0, verify at 0 (success with
user_id 1) and at 86400 (Expired). -/
theorem jwt_issue_then_verify_witness :
    jwtParse "secret" 0 (jwtIssue "secret" 1 "a@b.com" 0) =
      Except.ok { user_id := 1, email := "a@b.com", exp := 0 + 86400 } ∧
    jwtParse "secret" 86400 (jwtIssue "secret" 1 "a@b.com" 0) =
      Except.error JwtError.Expired :=
  jwt_issue_then_verify "secret" 1 "a@b.com" 0 86400 (by decide)

/-! ## Activation token manager (modelled from the spec) -/

/-- Modelled from the spec: the Activation Token Manager of spec section 4.2
is absent from src/ — only the /activate endpoint declaration appears, in
the OpenAPI document.  An activation token records its opaque value, the
owning user id, its expiry timestamp and its consumed flag. -/
structure ActivationToken where
  value : String
  userID : Nat
  expiry : Nat
  consumed : Bool
  deriving Repr, DecidableEq

/-- Validation failures of the activation-token layer, as the spec lists
them. -/
inductive TokenError where
  | NotFound
  | Expired
  | AlreadyConsumed
  deriving Repr, DecidableEq

/-- The store of issued activation tokens. -/
abbrev TokenStore : Type := List ActivationToken

/-- Modelled from the spec: Validate looks the token value up (NotFound when
missing), signals Expired without consuming when past expiry, and otherwise
atomically marks the token Consumed and returns the owning user id.  The
returned store is the post-state of that atomic read-modify-write. -/
def Validate (now : Nat) (store : TokenStore) (v : String) :
    Except TokenError Nat × TokenStore :=
  match store.find? (fun t => t.value == v) with
  | none => (.error .NotFound, store)
  | some t =>
    if t.expiry ≤ now then (.error .Expired, store)
    else if t.consumed then (.error .AlreadyConsumed, store)
    else (.ok t.userID,
      store.map (fun u => if u.value = v then { u with consumed := true } else u))

/-- Runs n Validate calls on the same token value one after another: by the
spec's atomicity requirement, any concurrent execution of n racing callers
is equivalent to such a serialization. -/
def validateMany (now : Nat) (store : TokenStore) (v : String) :
    Nat → List (Except TokenError Nat) × TokenStore
  | 0 => ([], store)
  | n + 1 =>
    let r := Validate now store v
    let rest := validateMany now r.2 v n
    (r.1 :: rest.1, rest.2)

/-- Consuming a token by value preserves lookup: the found token is the old
one with its consumed flag set. -/
theorem find?_consume (store : TokenStore) (v : String) (t : ActivationToken)
    (h : store.find? (fun u => u.value == v) = some t) :
    (store.map
        (fun u => if u.value = v then { u with consumed := true } else u)).find?
      (fun u => u.value == v) = some { t with consumed := true } := by
  induction store with
  | nil => simp at h
  | cons a l ih =>
    rw [List.map_cons]
    by_cases ha : a.value = v
    · rw [List.find?_cons_of_pos _ (by simpa using ha)] at h
      injection h with h
      subst h
      rw [if_pos ha]
      exact List.find?_cons_of_pos _ (by simpa using ha)
    · rw [List.find?_cons_of_neg _ (by simpa using ha)] at h
      rw [if_neg ha, List.find?_cons_of_neg _ (by simpa using ha)]
      exact ih h

/-- A consumed, unexpired token validates to AlreadyConsumed and the store is
unchanged. -/
theorem validate_consumed (now : Nat) (store : TokenStore) (v : String)
    (t : ActivationToken)
    (h1 : store.find? (fun u => u.value == v) = some t)
    (h2 : t.consumed = true) (h3 : now < t.expiry) :
    Validate now store v = (Except.error TokenError.AlreadyConsumed, store) := by
  unfold Validate
  rw [h1]
  simp [h2, Nat.not_le.mpr h3]

/-- Every further Validate call on a consumed, unexpired token answers
AlreadyConsumed and leaves the store untouched. -/
theorem validateMany_consumed (now : Nat) (v : String) (n : Nat)
    (store : TokenStore) (t : ActivationToken)
    (h1 : store.find? (fun u => u.value == v) = some t)
    (h2 : t.consumed = true) (h3 : now < t.expiry) :
    validateMany now store v n =
      (List.replicate n (Except.error TokenError.AlreadyConsumed), store) := by
  induction n with
  | zero => simp [validateMany]
  | succ m ih =>
    have hv := validate_consumed now store v t h1 h2 h3
    simp [validateMany, hv, ih, List.replicate_succ]

/-! ## Theorems: activation tokens -/

/-- C2: among n + 1 serialized Validate calls on one issued, unconsumed,
unexpired token — the serialization every concurrent execution must be
equivalent to, since consumption is an atomic read-modify-write — exactly
the first returns success with the owning user id and every other call
returns AlreadyConsumed. -/
theorem validate_exactly_one_success (now : Nat) (store : TokenStore)
    (v : String) (t : ActivationToken) (n : Nat)
    (h1 : store.find? (fun u => u.value == v) = some t)
    (h2 : t.consumed = false) (h3 : now < t.expiry) :
    (validateMany now store v (n + 1)).1 =
      Except.ok t.userID ::
        List.replicate n (Except.error TokenError.AlreadyConsumed) := by
  have hv : Validate now store v =
      (Except.ok t.userID,
        store.map
          (fun u => if u.value = v then { u with consumed := true } else u)) := by
    unfold Validate
    rw [h1]
    simp [h2, Nat.not_le.mpr h3]
  have hf := find?_consume store v t h1
  have hm := validateMany_consumed now v n _ { t with consumed := true } hf rfl h3
  simp only [validateMany]
  rw [hv]
  dsimp only
  rw [hm]

/-- Witness for C2: three racing Validate calls on a fresh token — one
success carrying user 7, two AlreadyConsumed. -/
theorem validate_exactly_one_success_witness :
    (validateMany 0
        [{ value := "tok", userID := 7, expiry := 100, consumed := false }]
        "tok" 3).1 =
      [Except.ok 7, Except.error TokenError.AlreadyConsumed,
       Except.error TokenError.AlreadyConsumed] := by
  have h := validate_exactly_one_success 0
      [{ value := "tok", userID := 7, expiry := 100, consumed := false }]
      "tok" { value := "tok", userID := 7, expiry := 100, consumed := false }
      2 (by decide) rfl (by decide)
  simpa using h

/-- C8: once a token's expiry has passed, every Validate call on its value —
whatever its consumed flag — answers Expired and leaves the store (so the
token's consumed flag) unchanged, for any number of calls, making Consumed
unreachable from Expired; conversely a consumed token before expiry answers
AlreadyConsumed with the store unchanged, so Expired-by-consumption is
unreachable from Consumed. -/
theorem validate_terminal_states (store : TokenStore) (v : String)
    (t : ActivationToken)
    (h1 : store.find? (fun u => u.value == v) = some t) :
    (∀ now n, t.expiry ≤ now →
        validateMany now store v n =
          (List.replicate n (Except.error TokenError.Expired), store)) ∧
    (∀ now, now < t.expiry → t.consumed = true →
        Validate now store v =
          (Except.error TokenError.AlreadyConsumed, store)) := by
  constructor
  · intro now n hexp
    induction n with
    | zero => simp [validateMany]
    | succ m ih =>
      have hv : Validate now store v = (Except.error TokenError.Expired, store) := by
        unfold Validate
        rw [h1]
        simp [hexp]
      simp [validateMany, hv, ih, List.replicate_succ]
  · intro now hlt hc
    exact validate_consumed now store v t h1 hc hlt

/-- Witness for C8: a token with expiry 10 validated twice at time 10 yields
Expired both times with the store unchanged; the same token already consumed,
validated at time 3, yields AlreadyConsumed with the store unchanged. -/
theorem validate_terminal_states_witness :
    validateMany 10
        [{ value := "t1", userID := 3, expiry := 10, consumed := false }]
        "t1" 2 =
      ([Except.error TokenError.Expired, Except.error TokenError.Expired],
       [{ value := "t1", userID := 3, expiry := 10, consumed := false }]) ∧
    Validate 3
        [{ value := "t1", userID := 3, expiry := 10, consumed := true }] "t1" =
      (Except.error TokenError.AlreadyConsumed,
       [{ value := "t1", userID := 3, expiry := 10, consumed := true }]) := by
  constructor
  · have h := (validate_terminal_states
        [{ value := "t1", userID := 3, expiry := 10, consumed := false }] "t1"
        { value := "t1", userID := 3, expiry := 10, consumed := false }
        (by decide)).1 10 2 (by decide)
    simpa using h
  · exact (validate_terminal_states
        [{ value := "t1", userID := 3, expiry := 10, consumed := true }] "t1"
        { value := "t1", userID := 3, expiry := 10, consumed := true }
        (by decide)).2 3 (by decide) rfl

end GoAuth
